import Mathlib

/-!
Verification of the time-boxed cooperative signing-lock protocol embedded in
`electrum/gui/qt/transaction_dialog_timeout.py` (EXOS-Electrum).

The dialog's state machine is shallowly embedded: each relevant Python method
(`__init__`, `do_broadcast`, `timer_timeout`, `release_lock`, `closeEvent`,
the `sign_done` callback, and the `can_sign` computation of `update`) becomes
a Lean function on an explicit state record.  Machine integers are `Int`
(Python ints are unbounded).  Calls into the remote lock coordinator
(`server.lock`, `server.delete`, `del server.lock`) are recorded in an event
log so that claims about which coordinator operations happen can be stated.
-/

namespace TxTimeout

/-- `DURATION_INT = 60 * 10` (transaction_dialog_timeout.py line 62). -/
def DURATION_INT : Int := 60 * 10

/-- Lock-coordinator calls observable from the dialog: reading the lock
record (`server.lock`) and deleting it (`server.delete(wallet_hash)` /
`del server.lock`). -/
inductive LockOp
  | getLock
  | deleteLock
  deriving DecidableEq, Repr

/-- The transaction snapshot held by the dialog.  Only the observables the
dialog consults are modelled: whether `deserialize()` succeeds and whether
`is_complete()` holds. -/
structure Tx where
  deserializeOk : Bool
  complete : Bool
  deriving DecidableEq, Repr

/-- The mutable attributes of a `TxDialogTimeout` instance that the
lock/countdown logic reads or writes, plus the wallet/window facts it
consults (`type(self.wallet) == Multisig_Wallet`, `self.wallet.can_sign`,
`self.main_window.tx_external_keypairs`).  `inDialogs` models membership in
the module-level `dialogs` list; `visible` models `isVisible()`. -/
structure DialogState where
  tx : Tx
  walletCanSign : Bool
  externalKeypairs : Bool
  multisig : Bool
  saved : Bool
  promptIfUnsaved : Bool
  saveEnabled : Bool
  timeLeftInt : Int
  timedOut : Bool
  timerRunning : Bool
  visible : Bool
  inDialogs : Bool
  deriving DecidableEq, Repr

/-- Whole-system state: the dialog, the remote lock record for this wallet
(timestamp, `none` = absent), and the accumulated log of coordinator calls. -/
structure SysState where
  dlg : DialogState
  srvLock : Option Int
  log : List LockOp
  deriving DecidableEq, Repr

/-- Modelled from the spec: the LockCoordinator source
(`electrum_exos.plugins.cosigner_pool.server`) is not under src/.  Per the
spec, `getLock(walletHash) -> LockRecord | absent`; reading never mutates. -/
def getLockRead (srvLock : Option Int) : Option Int := srvLock

/-- Modelled from the spec: `deleteLock(walletHash)` removes the record;
releasing an already-released (absent) lock is a no-op, not an error. -/
def deleteLockRun (_srvLock : Option Int) : Option Int := none

/-- The countdown seeding expression of the constructor (line 173):
`DURATION_INT - (now - lockTimestamp)`, exactly as written — the source
applies no clamping. -/
def computeRemaining (now lockTimestamp configuredDuration : Int) : Int :=
  configuredDuration - (now - lockTimestamp)

/-- Construction failure kind: `SerializationError` raised by the
constructor when `self.tx.deserialize()` fails (lines 92-95). -/
inductive ConstructError
  | serializationError
  deriving DecidableEq, Repr

/-- `TxDialogTimeout.__init__` (the state-relevant part, in source order):
deep-copy the transaction (value capture), attempt `deserialize()` raising
`SerializationError` on failure, set `saved = False`, seed the save button
from `tx.is_complete()`, set `time_left_int = DURATION_INT`, read
`server.lock`, and if a lock record with a truthy timestamp exists, seed the
countdown from `computeRemaining` and start the timer.  Returns the dialog
state (or the error) together with the coordinator calls performed. -/
def initDialog (tx : Tx) (multisig walletCanSign externalKeypairs promptIfUnsaved : Bool)
    (now : Int) (srvLock : Option Int) :
    Except ConstructError DialogState × List LockOp :=
  if tx.deserializeOk then
    let st0 : DialogState :=
      { tx := tx
        walletCanSign := walletCanSign
        externalKeypairs := externalKeypairs
        multisig := multisig
        saved := false
        promptIfUnsaved := promptIfUnsaved
        saveEnabled := tx.complete
        timeLeftInt := DURATION_INT
        timedOut := false
        timerRunning := false
        visible := false
        inDialogs := false }
    let st1 : DialogState :=
      match getLockRead srvLock with
      | some ts =>
          if ts ≠ 0 then
            { st0 with timeLeftInt := computeRemaining now ts DURATION_INT
                       timerRunning := true }
          else st0
      | none => st0
    (Except.ok st1, [LockOp.getLock])
  else
    (Except.error ConstructError.serializationError, [])

/-- `show_transaction_timeout` (lines 67-76): construct the dialog; on
`SerializationError` report the error to the caller and leave the registry
untouched; otherwise append to `dialogs` and `show()`.  `registry` is the
length of the module-level `dialogs` list. -/
def show_transaction_timeout (tx : Tx)
    (multisig walletCanSign externalKeypairs promptIfUnsaved : Bool)
    (now : Int) (srvLock : Option Int) (registry : Nat) :
    Except ConstructError SysState × Nat × List LockOp :=
  match initDialog tx multisig walletCanSign externalKeypairs promptIfUnsaved now srvLock with
  | (Except.error e, calls) => (Except.error e, registry, calls)
  | (Except.ok st, calls) =>
      (Except.ok
        { dlg := { st with inDialogs := true, visible := true }
          srvLock := srvLock
          log := calls },
       registry + 1, calls)

/-- The `can_sign` computation of `update` (lines 276-278):
`not self.tx.is_complete() and (self.wallet.can_sign(self.tx) or
bool(self.main_window.tx_external_keypairs))`. -/
def can_sign (d : DialogState) : Bool :=
  (!d.tx.complete) && (d.walletCanSign || d.externalKeypairs)

/-- `release_lock` (lines 206-208): `if type(self.wallet) == Multisig_Wallet:
del server.lock`. -/
def release_lock (s : SysState) : SysState :=
  if s.dlg.multisig then
    { s with srvLock := deleteLockRun s.srvLock
             log := s.log ++ [LockOp.deleteLock] }
  else s

/-- `closeEvent` (lines 210-216): accept the event, then
`try: dialogs.remove(self); self.release_lock() except ValueError: pass`.
When the dialog is no longer in the registry, `remove` raises and the
release is skipped silently. -/
def closeEvent (s : SysState) : SysState :=
  if s.dlg.inDialogs then
    release_lock { s with dlg := { s.dlg with inDialogs := false } }
  else s

/-- `close()`: hides the dialog and delivers `closeEvent`. -/
def close (s : SysState) : SysState :=
  closeEvent { s with dlg := { s.dlg with visible := false } }

/-- `timer_timeout` (lines 199-204): decrement `time_left_int`; if it equals
exactly 0 and the dialog is visible, set `timed_out` and `close()`. -/
def timer_timeout (s : SysState) : SysState :=
  let s1 : SysState := { s with dlg := { s.dlg with timeLeftInt := s.dlg.timeLeftInt - 1 } }
  if s1.dlg.timeLeftInt = 0 ∧ s1.dlg.visible = true then
    close { s1 with dlg := { s1.dlg with timedOut := true } }
  else s1

/-- `do_broadcast` (lines 177-190): attempt the broadcast; in the `finally`
block, if the wallet is multisig, `server.delete(wallet_hash)`; only when
broadcast did not raise, set `saved = True` (the raised exception propagates
past the tail of the method). `broadcastOk` is whether
`broadcast_transaction` returned without raising. -/
def do_broadcast (s : SysState) (broadcastOk : Bool) : SysState :=
  let s1 : SysState :=
    if s.dlg.multisig then
      { s with srvLock := deleteLockRun s.srvLock
               log := s.log ++ [LockOp.deleteLock] }
    else s
  if broadcastOk then { s1 with dlg := { s1.dlg with saved := true } } else s1

/-- The `sign_done` callback of `sign` (lines 234-241): the wallet's
`sign_tx` has mutated `self.tx` (modelled: completeness can only be gained);
if `self.tx.is_complete()`, set `prompt_if_unsaved = True`, `saved = False`,
and enable the save button.  `nowComplete` is whether signing completed the
transaction. -/
def sign_done (s : SysState) (nowComplete : Bool) : SysState :=
  let tx1 : Tx := { s.dlg.tx with complete := s.dlg.tx.complete || nowComplete }
  let d1 : DialogState := { s.dlg with tx := tx1 }
  if tx1.complete then
    { s with dlg := { d1 with promptIfUnsaved := true, saved := false, saveEnabled := true } }
  else
    { s with dlg := d1 }

/-- Externally triggered events on a live session. -/
inductive Op
  | tick
  | userClose
  | broadcast (ok : Bool)
  | signDone (nowComplete : Bool)
  deriving DecidableEq, Repr

/-- One event step of the session. -/
def step (s : SysState) (o : Op) : SysState :=
  match o with
  | Op.tick => timer_timeout s
  | Op.userClose => close s
  | Op.broadcast ok => do_broadcast s ok
  | Op.signDone c => sign_done s c

/-- A run of the session over a list of events. -/
def run (s : SysState) (ops : List Op) : SysState :=
  ops.foldl step s

/-- `n` consecutive user close events. -/
def closeN (s : SysState) (n : Nat) : SysState :=
  run s (List.replicate n Op.userClose)

/-- Number of lock deletions in a coordinator-call log. -/
def countDelete : List LockOp → Nat
  | [] => 0
  | LockOp.deleteLock :: xs => countDelete xs + 1
  | LockOp.getLock :: xs => countDelete xs

/-- A transaction that deserializes and is not yet complete. -/
def txOk : Tx := { deserializeOk := true, complete := false }

/-- A transaction whose `deserialize()` raises. -/
def txBad : Tx := { deserializeOk := false, complete := false }

/-- The session produced by `show_transaction_timeout` for a multisig wallet
that can sign, with a remote lock record of timestamp 40 observed at time
100: the countdown is seeded to `600 - (100 - 40) = 540`. -/
def msSession : SysState :=
  { dlg :=
      { tx := txOk
        walletCanSign := true
        externalKeypairs := false
        multisig := true
        saved := false
        promptIfUnsaved := true
        saveEnabled := false
        timeLeftInt := 540
        timedOut := false
        timerRunning := true
        visible := true
        inDialogs := true }
    srvLock := some 40
    log := [LockOp.getLock] }

/-- `msSession` is exactly what construction-and-show yields. -/
theorem msSession_reachable :
    show_transaction_timeout txOk true true false true 100 (some 40) 0 =
      (Except.ok msSession, 1, [LockOp.getLock]) := by
  rfl

/-- Same construction for a single-signature (non-multisig) wallet. -/
def ssSession : SysState :=
  { msSession with dlg := { msSession.dlg with multisig := false } }

/-- `ssSession` is exactly what construction-and-show yields for the
non-multisig wallet. -/
theorem ssSession_reachable :
    show_transaction_timeout txOk false true false true 100 (some 40) 0 =
      (Except.ok ssSession, 1, [LockOp.getLock]) := by
  rfl

/-- A visible multisig session one tick away from expiry. -/
def nearExpiry : SysState :=
  { msSession with dlg := { msSession.dlg with timeLeftInt := 1 } }

/-- The session produced when the remote lock's timestamp is already
`DURATION_INT` seconds or more in the past: timestamp 100 read at time 800
seeds the countdown to `600 - 700 = -100`. -/
def lateSession : SysState :=
  { msSession with dlg := { msSession.dlg with timeLeftInt := -100 }
                   srvLock := some 100 }

/-- `lateSession` is exactly what construction-and-show yields at time 800
against a lock stamped 100. -/
theorem lateSession_reachable :
    show_transaction_timeout txOk true true false true 800 (some 100) 0 =
      (Except.ok lateSession, 1, [LockOp.getLock]) := by
  rfl

/-- C1: the spec claims `computeRemaining` clamps to 0 and is never
negative; the code (line 173) computes `DURATION_INT - (now - expire)` with
no clamp.  At D=600, T=0, N=700 (elapsed 700 > 600) the code yields -100,
not 0, and is negative. -/
theorem C1_counterexample :
    computeRemaining 700 0 600 = -100 ∧ computeRemaining 700 0 600 < 0 := by
  decide

/-- C1 (amended): `computeRemaining now T D` is always `D - (now - T)`: for
elapsed `E = now - T ≤ D` it returns `D - E ≥ 0` as claimed, but for
`E > D` it returns the negative value `D - E` — no clamping to 0 occurs. -/
theorem C1_amended (D T N : Int) :
    computeRemaining N T D = D - (N - T) ∧
    (0 ≤ computeRemaining N T D ↔ N - T ≤ D) ∧
    (computeRemaining N T D < 0 ↔ D < N - T) := by
  refine ⟨rfl, ?_, ?_⟩ <;> (simp only [computeRemaining]; omega)

/-- `countDelete` distributes over append. -/
theorem countDelete_append (xs ys : List LockOp) :
    countDelete (xs ++ ys) = countDelete xs + countDelete ys := by
  induction xs with
  | nil => simp [countDelete]
  | cons x xs ih => cases x <;> simp [countDelete, ih] <;> omega

/-- After a close the dialog is out of the registry. -/
theorem close_inDialogs (s : SysState) : (close s).dlg.inDialogs = false := by
  obtain ⟨⟨tx, wcs, ext, ms, sv, p, se, tl, tout, tr, vis, ind⟩, lk, lg⟩ := s
  cases ind <;> cases ms <;> rfl

/-- After a close the dialog is hidden. -/
theorem close_visible (s : SysState) : (close s).dlg.visible = false := by
  obtain ⟨⟨tx, wcs, ext, ms, sv, p, se, tl, tout, tr, vis, ind⟩, lk, lg⟩ := s
  cases ind <;> cases ms <;> rfl

/-- Closing an already-closed session changes nothing: the registry removal
raises `ValueError`, which is caught, and the release is skipped. -/
theorem close_close (s : SysState) : close (close s) = close s := by
  obtain ⟨⟨tx, wcs, ext, ms, sv, p, se, tl, tout, tr, vis, ind⟩, lk, lg⟩ := s
  cases ind <;> cases ms <;> rfl

/-- Any number of further closes after the first leaves the state at
`close s`. -/
theorem closeN_close_fix (s : SysState) (n : Nat) : closeN (close s) n = close s := by
  induction n generalizing s with
  | zero => rfl
  | succ k ih =>
      have h1 : closeN (close s) (k + 1) = closeN (close (close s)) k := by
        simp [closeN, run, List.replicate_succ, step]
      rw [h1, close_close, ih]

/-- A single close appends at most one lock deletion to the log. -/
theorem close_countDelete (s : SysState) :
    countDelete (close s).log ≤ countDelete s.log + 1 := by
  obtain ⟨⟨tx, wcs, ext, ms, sv, p, se, tl, tout, tr, vis, ind⟩, lk, lg⟩ := s
  cases ind <;> cases ms <;>
    simp [close, closeEvent, release_lock, countDelete_append, countDelete]

/-- C2: after any broadcast attempt on a multisig-wallet session — whether
`broadcast_transaction` returned or raised — the `finally` block has deleted
the remote lock for the wallet's hash before `do_broadcast` concludes. -/
theorem C2_broadcast_always_releases (s : SysState) (ok : Bool)
    (h : s.dlg.multisig = true) :
    (do_broadcast s ok).srvLock = none ∧
    LockOp.deleteLock ∈ (do_broadcast s ok).log := by
  cases ok <;> simp [do_broadcast, deleteLockRun, h]

/-- C2 witness: the multisig sample session, broadcast raising. -/
theorem C2_broadcast_always_releases_witness :
    msSession.dlg.multisig = true ∧
    ((do_broadcast msSession false).srvLock = none ∧
      LockOp.deleteLock ∈ (do_broadcast msSession false).log) :=
  ⟨rfl, C2_broadcast_always_releases msSession false rfl⟩

/-- C3: on a multisig session, any number of repeated closes deletes the
remote lock at most once (the log gains at most one `deleteLock`), and every
close after the first is a silent no-op (the state is exactly that after the
first close; the `ValueError` from the registry removal is caught, so no
error escapes). -/
theorem C3_close_at_most_once (s : SysState) (h : s.dlg.multisig = true) :
    (∀ n : Nat, countDelete (closeN s n).log ≤ countDelete s.log + 1) ∧
    (∀ n : Nat, closeN s (n + 1) = close s) := by
  have hfix : ∀ n : Nat, closeN s (n + 1) = close s := by
    intro n
    have h1 : closeN s (n + 1) = closeN (close s) n := by
      simp [closeN, run, List.replicate_succ, step]
    rw [h1, closeN_close_fix]
  refine ⟨?_, hfix⟩
  intro n
  cases n with
  | zero => simp [closeN, run]
  | succ k => rw [hfix k]; exact close_countDelete s

/-- C3 witness: the multisig sample session closed repeatedly. -/
theorem C3_close_at_most_once_witness :
    msSession.dlg.multisig = true ∧
    countDelete (closeN msSession 3).log ≤ countDelete msSession.log + 1 ∧
    closeN msSession 2 = close msSession :=
  ⟨rfl, (C3_close_at_most_once msSession rfl).1 3,
    (C3_close_at_most_once msSession rfl).2 1⟩

/-- C4: refuted as stated — the constructor reads `server.lock` (line 170)
unconditionally, before any wallet-type test, so even a session for a
non-multisig wallet performs a `getLock` coordinator call at construction:
the construction log is `[getLock]`, not empty. -/
theorem C4_counterexample :
    ssSession.dlg.multisig = false ∧
    LockOp.getLock ∈
      (show_transaction_timeout txOk false true false true 100 (some 40) 0).2.2 := by
  decide

/-- One step of a non-multisig session never touches the remote lock: the
wallet-type guards in `release_lock` and `do_broadcast` fail, so the lock
record and the coordinator-call log are unchanged (and the wallet type is
stable). -/
theorem step_nonMultisig_frame (s : SysState) (o : Op) (h : s.dlg.multisig = false) :
    (step s o).dlg.multisig = false ∧ (step s o).srvLock = s.srvLock ∧
    (step s o).log = s.log := by
  obtain ⟨⟨tx, wcs, ext, ms, sv, p, se, tl, tout, tr, vis, ind⟩, lk, lg⟩ := s
  have hm : ms = false := h
  subst hm
  cases o with
  | tick =>
      simp only [step, timer_timeout, close, closeEvent, release_lock]
      split_ifs <;> simp_all
  | userClose =>
      simp only [step, close, closeEvent, release_lock]
      split_ifs <;> simp_all
  | broadcast ok =>
      simp only [step, do_broadcast]
      split_ifs <;> simp_all
  | signDone c =>
      simp only [step, sign_done]
      split_ifs <;> simp_all

/-- A whole run of a non-multisig session leaves the lock and the call log
unchanged. -/
theorem run_nonMultisig_frame (ops : List Op) :
    ∀ s : SysState, s.dlg.multisig = false →
      (run s ops).srvLock = s.srvLock ∧ (run s ops).log = s.log := by
  induction ops with
  | nil => intro s _; exact ⟨rfl, rfl⟩
  | cons o ops ih =>
      intro s h
      obtain ⟨hm, hl, hg⟩ := step_nonMultisig_frame s o h
      obtain ⟨ih1, ih2⟩ := ih (step s o) hm
      exact ⟨ih1.trans hl, ih2.trans hg⟩

/-- C4 (amended): a non-multisig session never acquires, refreshes or
deletes the remote lock across its whole lifetime — the lock record and the
coordinator-call log are invariant under every event sequence — but it does
perform one `getLock` read at construction (see the counterexample). -/
theorem C4_nonMultisig_never_releases (s : SysState) (ops : List Op)
    (h : s.dlg.multisig = false) :
    (run s ops).srvLock = s.srvLock ∧ (run s ops).log = s.log :=
  run_nonMultisig_frame ops s h

/-- C4 witness: the non-multisig sample session run through a tick, a close,
a broadcast and a sign completion. -/
theorem C4_nonMultisig_never_releases_witness :
    ssSession.dlg.multisig = false ∧
    ((run ssSession [Op.tick, Op.userClose, Op.broadcast true, Op.signDone true]).srvLock
        = ssSession.srvLock ∧
     (run ssSession [Op.tick, Op.userClose, Op.broadcast true, Op.signDone true]).log
        = ssSession.log) :=
  ⟨rfl, C4_nonMultisig_never_releases ssSession
    [Op.tick, Op.userClose, Op.broadcast true, Op.signDone true] rfl⟩

/-- C5: refuted as stated — a `tick()` after the session is closed is not
observably inert: `timer_timeout` decrements `time_left_int` first and
unconditionally (line 200), so ticking the closed sample session changes its
state (the counter drops from 540 to 539). -/
theorem C5_counterexample : timer_timeout (close msSession) ≠ close msSession := by
  decide

/-- C5 (amended): a tick that brings the countdown to exactly 0 while the
dialog is visible marks it timed-out and closes it in the same step; a tick
on a closed (hidden) session only decrements the counter and has no other
effect — it never expires, closes, or touches the lock. -/
theorem C5_tick_expiry (s : SysState) :
    (s.dlg.visible = true → s.dlg.timeLeftInt = 1 →
      ((timer_timeout s).dlg.timedOut = true ∧
       (timer_timeout s).dlg.visible = false ∧
       (timer_timeout s).dlg.inDialogs = false)) ∧
    (s.dlg.visible = false →
      timer_timeout s =
        { s with dlg := { s.dlg with timeLeftInt := s.dlg.timeLeftInt - 1 } }) := by
  obtain ⟨⟨tx, wcs, ext, ms, sv, p, se, tl, tout, tr, vis, ind⟩, lk, lg⟩ := s
  constructor
  · intro hv ht
    have hv' : vis = true := hv
    have ht' : tl = 1 := ht
    subst hv'
    subst ht'
    cases ind <;> cases ms <;> exact ⟨rfl, rfl, rfl⟩
  · intro hv
    have hv' : vis = false := hv
    subst hv'
    simp [timer_timeout]

/-- C5 witness: the near-expiry visible session, and the closed sample
session ticked once. -/
theorem C5_tick_expiry_witness :
    ((timer_timeout nearExpiry).dlg.timedOut = true ∧
     (timer_timeout nearExpiry).dlg.visible = false ∧
     (timer_timeout nearExpiry).dlg.inDialogs = false) ∧
    (timer_timeout (close msSession)).dlg.timeLeftInt = 539 := by
  constructor
  · exact (C5_tick_expiry nearExpiry).1 rfl rfl
  · have h2 := (C5_tick_expiry (close msSession)).2 (close_visible msSession)
    rw [h2]
    rfl

/-- C6: when the presented transaction fails to deserialize, construction
fails with the distinct `SerializationError` kind, nothing is appended to
the `dialogs` registry, and no lock-coordinator call is made. -/
theorem C6_deserialize_failure (tx : Tx) (ms wcs ext p : Bool) (now : Int)
    (srvLock : Option Int) (registry : Nat) (h : tx.deserializeOk = false) :
    show_transaction_timeout tx ms wcs ext p now srvLock registry =
      (Except.error ConstructError.serializationError, registry, []) := by
  simp [show_transaction_timeout, initDialog, h]

/-- C6 witness: the malformed sample transaction. -/
theorem C6_deserialize_failure_witness :
    txBad.deserializeOk = false ∧
    show_transaction_timeout txBad true true false true 100 (some 40) 0 =
      (Except.error ConstructError.serializationError, 0, []) :=
  ⟨rfl, C6_deserialize_failure txBad true true false true 100 (some 40) 0 rfl⟩

/-- C7: refuted as stated — `can_sign` (lines 276-278) tests only
transaction completeness and signing ability; it does not consult the
expired/closed state.  Ticking the near-expiry session expires and closes
it, yet `can_sign` still evaluates to true on the resulting state. -/
theorem C7_counterexample :
    (timer_timeout nearExpiry).dlg.timedOut = true ∧
    (timer_timeout nearExpiry).dlg.visible = false ∧
    can_sign (timer_timeout nearExpiry).dlg = true := by
  decide

/-- C7 (amended): `can_sign` is true iff the transaction is incomplete and
the wallet can produce a signature locally or external key material is
supplied — with no dependence on the session being expired or closed. -/
theorem C7_can_sign_characterization (d : DialogState) :
    can_sign d = true ↔
      (d.tx.complete = false ∧
        (d.walletCanSign = true ∨ d.externalKeypairs = true)) := by
  simp [can_sign]

/-- C8: when a sign operation completes and the transaction has become
fully signed, save becomes enabled and `can_sign` becomes false, while the
remote lock record, the coordinator-call log, the countdown, the expiry
flag, visibility and registry membership are all unchanged — in particular
sign completion does not release the lock. -/
theorem C8_sign_complete_frame (s : SysState) :
    (sign_done s true).srvLock = s.srvLock ∧
    (sign_done s true).log = s.log ∧
    can_sign (sign_done s true).dlg = false ∧
    (sign_done s true).dlg.saveEnabled = true ∧
    (sign_done s true).dlg.tx.complete = true ∧
    (sign_done s true).dlg.timeLeftInt = s.dlg.timeLeftInt ∧
    (sign_done s true).dlg.timedOut = s.dlg.timedOut ∧
    (sign_done s true).dlg.timerRunning = s.dlg.timerRunning ∧
    (sign_done s true).dlg.visible = s.dlg.visible ∧
    (sign_done s true).dlg.inDialogs = s.dlg.inDialogs ∧
    (sign_done s true).dlg.multisig = s.dlg.multisig := by
  simp [sign_done, can_sign]

/-- An external-world event: either a background mutation of the original
(live) transaction object — e.g. the FX plugin refreshing it — or a session
event.  The constructor took `copy.deepcopy(tx)` (line 90), so the session
owns an independent value and mutation touches only the external cell. -/
inductive ExtOp
  | mutateOrig (t : Tx)
  | sess (o : Op)

/-- One step of the session paired with the external live-transaction cell. -/
def extStep (q : Tx × SysState) (x : ExtOp) : Tx × SysState :=
  match x with
  | ExtOp.mutateOrig t => (t, q.2)
  | ExtOp.sess o => (q.1, step q.2 o)

/-- A run over interleaved external mutations and session events. -/
def extRun (q : Tx × SysState) (xs : List ExtOp) : Tx × SysState :=
  xs.foldl extStep q

/-- The session events of an interleaved run. -/
def sessOps : List ExtOp → List Op
  | [] => []
  | ExtOp.mutateOrig _ :: xs => sessOps xs
  | ExtOp.sess o :: xs => o :: sessOps xs

/-- The session component of an interleaved run depends only on the session
events: mutations of the external cell never reach the snapshot. -/
theorem extRun_session (xs : List ExtOp) :
    ∀ q : Tx × SysState, (extRun q xs).2 = run q.2 (sessOps xs) := by
  induction xs with
  | nil => intro q; rfl
  | cons x xs ih =>
      intro q
      cases x with
      | mutateOrig t => exact ih (t, q.2)
      | sess o => exact ih (q.1, step q.2 o)

/-- C9: the transaction is deep-copied at construction, so for a
constructed session, two interleaved runs that agree on the session events
but differ arbitrarily in post-construction mutations of the original
transaction object end in identical session states (snapshot included). -/
theorem C9_snapshot_immune (tx : Tx) (ms wcs ext p : Bool) (now : Int)
    (srvLock : Option Int) (registry : Nat) (s : SysState) (xs ys : List ExtOp)
    (hs : (show_transaction_timeout tx ms wcs ext p now srvLock registry).1 =
      Except.ok s)
    (h : sessOps xs = sessOps ys) :
    (extRun (tx, s) xs).2 = (extRun (tx, s) ys).2 := by
  rw [extRun_session xs (tx, s), extRun_session ys (tx, s), h]

/-- C9 witness: mutating the original before or after a tick — or to
different values — leaves the session state identical. -/
theorem C9_snapshot_immune_witness :
    (extRun (txOk, msSession) [ExtOp.mutateOrig txBad, ExtOp.sess Op.tick]).2 =
      (extRun (txOk, msSession)
        [ExtOp.sess Op.tick,
         ExtOp.mutateOrig { deserializeOk := true, complete := true }]).2 :=
  C9_snapshot_immune txOk true true false true 100 (some 40) 0 msSession
    [ExtOp.mutateOrig txBad, ExtOp.sess Op.tick]
    [ExtOp.sess Op.tick, ExtOp.mutateOrig { deserializeOk := true, complete := true }]
    (by rw [msSession_reachable]) rfl

/-- On a nonpositive countdown a tick is a pure decrement: the expiry test
`time_left_int == 0` fails because the counter has already passed 0. -/
theorem tick_nonpos (s : SysState) (h : s.dlg.timeLeftInt ≤ 0) :
    timer_timeout s =
      { s with dlg := { s.dlg with timeLeftInt := s.dlg.timeLeftInt - 1 } } := by
  obtain ⟨⟨tx, wcs, ext, ms, sv, p, se, tl, tout, tr, vis, ind⟩, lk, lg⟩ := s
  have h' : tl ≤ 0 := h
  have hneg1 : ¬(tl - 1 = 0) := by omega
  simp [timer_timeout, hneg1]

/-- Iterated ticks on a nonpositive countdown only subtract from the
counter. -/
theorem run_ticks_nonpos (k : Nat) :
    ∀ s : SysState, s.dlg.timeLeftInt ≤ 0 →
      run s (List.replicate k Op.tick) =
        { s with dlg := { s.dlg with timeLeftInt := s.dlg.timeLeftInt - (k : Int) } } := by
  induction k with
  | zero =>
      intro s _
      obtain ⟨⟨tx, wcs, ext, ms, sv, p, se, tl, tout, tr, vis, ind⟩, lk, lg⟩ := s
      simp [run]
  | succ n ih =>
      intro s h
      have h1 : run s (List.replicate (n + 1) Op.tick) =
          run (timer_timeout s) (List.replicate n Op.tick) := by
        simp [run, List.replicate_succ, step]
      rw [h1, tick_nonpos s h]
      rw [ih { s with dlg := { s.dlg with timeLeftInt := s.dlg.timeLeftInt - 1 } }
          (by show s.dlg.timeLeftInt - 1 ≤ 0; omega)]
      obtain ⟨⟨tx, wcs, ext, ms, sv, p, se, tl, tout, tr, vis, ind⟩, lk, lg⟩ := s
      simp
      omega

/-- C10: a session seeded from a lock whose timestamp is `DURATION_INT`
seconds or more in the past starts with `time_left_int ≤ 0`; every tick then
decrements the already-nonpositive counter past 0, the strict test
`time_left_int == 0` never fires, and so no number of ticks ever marks the
session timed-out, auto-closes it, or touches the lock — the countdown just
grows unboundedly negative. -/
theorem C10_stale_seed_never_expires (tx : Tx) (ms wcs ext p : Bool)
    (now ts : Int) (registry : Nat) (k : Nat) (s : SysState)
    (hts : ts ≠ 0) (hE : DURATION_INT ≤ now - ts) (hok : tx.deserializeOk = true)
    (hs : (show_transaction_timeout tx ms wcs ext p now (some ts) registry).1 =
      Except.ok s) :
    (run s (List.replicate k Op.tick)).dlg.timedOut = false ∧
    (run s (List.replicate k Op.tick)).dlg.visible = true ∧
    (run s (List.replicate k Op.tick)).dlg.inDialogs = true ∧
    (run s (List.replicate k Op.tick)).srvLock = some ts ∧
    (run s (List.replicate k Op.tick)).log = [LockOp.getLock] ∧
    (run s (List.replicate k Op.tick)).dlg.timeLeftInt =
      computeRemaining now ts DURATION_INT - (k : Int) := by
  simp only [show_transaction_timeout, initDialog, getLockRead, hok, hts, if_true,
    ne_eq, not_false_eq_true, ite_true] at hs
  obtain rfl : _ = s := Except.ok.inj hs
  rw [run_ticks_nonpos k _ ?_]
  · exact ⟨rfl, rfl, rfl, rfl, rfl, rfl⟩
  · show computeRemaining now ts DURATION_INT ≤ 0
    simp only [computeRemaining, DURATION_INT] at hE ⊢
    omega

/-- C10 witness: the stale-lock sample session (seed -100) ticked 3 times. -/
theorem C10_stale_seed_never_expires_witness :
    (run lateSession (List.replicate 3 Op.tick)).dlg.timedOut = false ∧
    (run lateSession (List.replicate 3 Op.tick)).dlg.visible = true ∧
    (run lateSession (List.replicate 3 Op.tick)).dlg.inDialogs = true ∧
    (run lateSession (List.replicate 3 Op.tick)).srvLock = some 100 ∧
    (run lateSession (List.replicate 3 Op.tick)).log = [LockOp.getLock] ∧
    (run lateSession (List.replicate 3 Op.tick)).dlg.timeLeftInt =
      computeRemaining 800 100 DURATION_INT - (3 : Int) :=
  C10_stale_seed_never_expires txOk true true false true 800 100 0 3 lateSession
    (by decide) (by decide) rfl (by rw [lateSession_reachable])

end TxTimeout
